import Mathlib

/-!
Shallow embedding of the Cyberpunk RPG combat core (combat.py, player.py,
items.py) and proofs of the specification claims about it.

Conventions of the embedding:
* Python `int` is modelled as `Int`.
* Python floor division `//` is modelled as `Int.fdiv`.
* Python `int(x * 1.5)`, `int(x * 0.3)`, `int(x * 0.2)` truncate the float
  product toward zero; for every integer operand the program can produce
  (magnitude far below 2^49) the double product rounds to the exact rational
  value, so these are modelled exactly as `Int.tdiv (x * 3) 2`,
  `Int.tdiv (x * 3) 10` and `Int.tdiv x 5`.
* `random.randint`/`random.choice` draws are passed in explicitly: each
  simulated round receives the six values the code would draw, in draw order,
  and `random.choice` becomes an oracle `choose : List NPC → NPC` that is
  assumed to return an element of its (nonempty) argument.
* `datetime` values are opaque strings (`isoformat` round-trips them
  unchanged), matching the spec's treatment of timestamps as opaque.
* Presentation-only strings (battle descriptions, event log text) and fields
  never read by the combat core (`equipped_items`, the cooldown constants)
  are not modelled; no claim mentions them.
-/

namespace Cyberpunk

/-- Item (items.py, class Item): name, type, rarity, description, cost and the
four additive stat-bonus fields. -/
structure Item where
  name : String
  type : String
  rarity : String
  description : String
  cost : Int
  attack_bonus : Int
  defense_bonus : Int
  speed_bonus : Int
  critical_bonus : Int
deriving Repr, DecidableEq

/-- Dictionary shape produced by Item.to_dict (items.py lines 25-37). -/
structure ItemDict where
  name : String
  type : String
  rarity : String
  description : String
  cost : Int
  attack_bonus : Int
  defense_bonus : Int
  speed_bonus : Int
  critical_bonus : Int
deriving Repr, DecidableEq

/-- Item.to_dict (items.py): copies every field into the dictionary. -/
def Item.to_dict (i : Item) : ItemDict :=
  { name := i.name, type := i.type, rarity := i.rarity,
    description := i.description, cost := i.cost,
    attack_bonus := i.attack_bonus, defense_bonus := i.defense_bonus,
    speed_bonus := i.speed_bonus, critical_bonus := i.critical_bonus }

/-- Item.from_dict (items.py): rebuilds an item from the dictionary (the
`.get(..., 0)` defaults never fire because to_dict always writes the keys). -/
def Item.from_dict (d : ItemDict) : Item :=
  { name := d.name, type := d.type, rarity := d.rarity,
    description := d.description, cost := d.cost,
    attack_bonus := d.attack_bonus, defense_bonus := d.defense_bonus,
    speed_bonus := d.speed_bonus, critical_bonus := d.critical_bonus }

/-- Player (player.py, class Player): the persistent player record.
`playtime_start`, `last_combat`, `last_search` are opaque timestamps. -/
structure Player where
  user_id : Int
  username : String
  level : Int
  experience : Int
  experience_to_next_level : Int
  credits : Int
  health : Int
  max_health : Int
  attack : Int
  defense : Int
  speed : Int
  critical_damage : Int
  combat_wins : Int
  combat_losses : Int
  items_found : Int
  playtime_start : String
  last_combat : Option String
  last_search : Option String
  inventory : List Item
deriving Repr, DecidableEq

/-- Player.__init__ (player.py lines 16-46): the fresh-player defaults; `now`
stands for `datetime.now()`. -/
def Player.new (user_id : Int) (username : String) (now : String) : Player :=
  { user_id := user_id, username := username, level := 1, experience := 0,
    experience_to_next_level := 100, credits := 1000, health := 100,
    max_health := 100, attack := 10, defense := 5, speed := 8,
    critical_damage := 15, combat_wins := 0, combat_losses := 0,
    items_found := 0, playtime_start := now, last_combat := none,
    last_search := none, inventory := [] }

/-- Player.level_up (player.py lines 57-74): level += 1, experience -= old
threshold, threshold = int(threshold * 1.5), max_health += 20, health fully
restored, attack += 3, defense += 2, speed += 1, critical_damage += 1,
credits += 100. -/
def Player.level_up (p : Player) : Player :=
  let p := { p with level := p.level + 1,
                    experience := p.experience - p.experience_to_next_level }
  let p := { p with experience_to_next_level :=
                      Int.tdiv (p.experience_to_next_level * 3) 2 }
  let p := { p with max_health := p.max_health + 20 }
  let p := { p with health := p.max_health }
  { p with attack := p.attack + 3, defense := p.defense + 2,
           speed := p.speed + 1, critical_damage := p.critical_damage + 1,
           credits := p.credits + 100 }

/-- Player.add_experience (player.py lines 48-55): adds the amount, then a
single (non-looping) threshold check that calls level_up at most once. -/
def Player.add_experience (p : Player) (amount : Int) : Player :=
  let p := { p with experience := p.experience + amount }
  if p.experience_to_next_level ≤ p.experience then p.level_up else p

/-- Player.add_credits (player.py lines 76-78). -/
def Player.add_credits (p : Player) (amount : Int) : Player :=
  { p with credits := p.credits + amount }

/-- Player.apply_item_effects (player.py lines 108-116): adds the item's
bonuses into the player's own stat fields, keyed on the item type. -/
def Player.apply_item_effects (p : Player) (item : Item) : Player :=
  if item.type = "weapon" then { p with attack := p.attack + item.attack_bonus }
  else if item.type = "armor" then
    { p with defense := p.defense + item.defense_bonus }
  else if item.type = "implant" then
    { p with speed := p.speed + item.speed_bonus,
             critical_damage := p.critical_damage + item.critical_bonus }
  else p

/-- Player.add_item (player.py lines 97-100): appends the item to the
inventory and then applies its effects to the stat fields. -/
def Player.add_item (p : Player) (item : Item) : Player :=
  Player.apply_item_effects { p with inventory := p.inventory ++ [item] } item

/-- Aggregated combat profile returned by Player.get_total_stats. -/
structure Stats where
  attack : Int
  defense : Int
  speed : Int
  critical_damage : Int
deriving Repr, DecidableEq

/-- Player.get_total_stats (player.py lines 184-205): starts from the current
stat fields and adds every inventory item's bonuses on top, keyed on type. -/
def Player.get_total_stats (p : Player) : Stats :=
  p.inventory.foldl
    (fun s item =>
      if item.type = "weapon" then { s with attack := s.attack + item.attack_bonus }
      else if item.type = "armor" then
        { s with defense := s.defense + item.defense_bonus }
      else if item.type = "implant" then
        { s with speed := s.speed + item.speed_bonus,
                 critical_damage := s.critical_damage + item.critical_bonus }
      else s)
    { attack := p.attack, defense := p.defense, speed := p.speed,
      critical_damage := p.critical_damage }

/-- Dictionary shape produced by Player.to_dict (player.py lines 207-229). -/
structure PlayerDict where
  user_id : Int
  username : String
  level : Int
  experience : Int
  experience_to_next_level : Int
  credits : Int
  health : Int
  max_health : Int
  attack : Int
  defense : Int
  speed : Int
  critical_damage : Int
  combat_wins : Int
  combat_losses : Int
  items_found : Int
  playtime_start : String
  last_combat : Option String
  last_search : Option String
  inventory : List ItemDict
deriving Repr, DecidableEq

/-- Player.to_dict (player.py lines 207-229): serialises every persistent
field; timestamps via isoformat (identity on the opaque model). -/
def Player.to_dict (p : Player) : PlayerDict :=
  { user_id := p.user_id, username := p.username, level := p.level,
    experience := p.experience,
    experience_to_next_level := p.experience_to_next_level,
    credits := p.credits, health := p.health, max_health := p.max_health,
    attack := p.attack, defense := p.defense, speed := p.speed,
    critical_damage := p.critical_damage, combat_wins := p.combat_wins,
    combat_losses := p.combat_losses, items_found := p.items_found,
    playtime_start := p.playtime_start, last_combat := p.last_combat,
    last_search := p.last_search,
    inventory := p.inventory.map Item.to_dict }

/-- Player.from_dict (player.py lines 231-261): builds a fresh player, copies
the scalar fields from the dictionary, then for each saved inventory item
appends it and calls apply_item_effects again. -/
def Player.from_dict (d : PlayerDict) : Player :=
  let p := Player.new d.user_id d.username d.playtime_start
  let p := { p with level := d.level, experience := d.experience,
                    experience_to_next_level := d.experience_to_next_level,
                    credits := d.credits, health := d.health,
                    max_health := d.max_health, attack := d.attack,
                    defense := d.defense, speed := d.speed,
                    critical_damage := d.critical_damage,
                    combat_wins := d.combat_wins,
                    combat_losses := d.combat_losses,
                    items_found := d.items_found,
                    playtime_start := d.playtime_start,
                    last_combat := d.last_combat,
                    last_search := d.last_search }
  d.inventory.foldl
    (fun p item_data =>
      let item := Item.from_dict item_data
      let p := { p with inventory := p.inventory ++ [item] }
      p.apply_item_effects item)
    p

/-- NPC (combat.py, class NPC): opponent template; the constructor sets
max_health := health and critical_damage := 15. -/
structure NPC where
  name : String
  level : Int
  health : Int
  max_health : Int
  attack : Int
  defense : Int
  speed : Int
  critical_damage : Int
deriving Repr, DecidableEq

/-- NPC.__init__ (combat.py lines 17-25). -/
def NPC.make (name : String) (level health attack defense speed : Int) : NPC :=
  { name := name, level := level, health := health, max_health := health,
    attack := attack, defense := defense, speed := speed,
    critical_damage := 15 }

/-- CombatSystem._create_npc_database (combat.py lines 32-59): the fixed
fifteen-entry roster. -/
def npc_database : List NPC :=
  [ NPC.make "Кибер-гангстер" 1 80 12 6 7,
    NPC.make "Нейрон-хакер" 2 90 15 8 9,
    NPC.make "Плазменный наемник" 3 100 18 10 8,
    NPC.make "Квантовый страж" 4 120 22 15 10,
    NPC.make "Хроно-охотник" 5 140 25 18 12,
    NPC.make "Нанобот-убийца" 6 160 28 20 14,
    NPC.make "Гравитационный воин" 7 180 32 25 16,
    NPC.make "Нейронный титан" 8 200 35 28 18,
    NPC.make "Квантовый демон" 9 220 38 30 20,
    NPC.make "Хроно-властелин" 10 250 42 35 22,
    NPC.make "Кибер-легенда" 15 300 50 40 25,
    NPC.make "Нейронный бог" 20 400 60 50 30,
    NPC.make "Плазменный тиран" 25 500 70 60 35,
    NPC.make "Квантовый император" 30 600 80 70 40,
    NPC.make "Хроно-создатель" 35 700 90 80 45 ]

/-- CombatSystem.find_opponent (combat.py lines 61-74): filter the roster to
levels within 3 of the player's, return None if no NPC qualifies, otherwise a
random.choice over the suitable list (modelled by the oracle `choose`). -/
def find_opponent (db : List NPC) (player_level : Int)
    (choose : List NPC → NPC) : Option NPC :=
  let suitable := db.filter (fun npc => (npc.level - player_level).natAbs ≤ 3)
  if suitable.isEmpty then none else some (choose suitable)

/-- CombatSystem._calculate_damage (combat.py lines 226-238), with the two
random draws passed in: `crit_roll` is the randint(1,100) draw and `jitter`
the randint(-2,2) draw. -/
def calculate_damage (attack defense critical_chance : Int)
    (crit_roll jitter : Int) : Int :=
  let base_damage := max 1 (attack - Int.fdiv defense 2)
  let base_damage :=
    if crit_roll ≤ critical_chance then Int.tdiv (base_damage * 3) 2
    else base_damage
  max 1 (base_damage + jitter)

/-- CombatSystem._calculate_experience_reward (combat.py lines 240-256). -/
def calculate_experience_reward (player_level opponent_level : Int)
    (victory : Bool) : Int :=
  let base_exp := opponent_level * 10
  let base_exp :=
    if victory then
      let b := Int.tdiv (base_exp * 3) 2
      if player_level < opponent_level then
        b + (opponent_level - player_level) * 5
      else b
    else Int.tdiv (base_exp * 3) 10
  max 1 base_exp

/-- CombatSystem._calculate_credits_reward (combat.py lines 258-274). -/
def calculate_credits_reward (player_level opponent_level : Int)
    (victory : Bool) : Int :=
  let base_credits := opponent_level * 5
  let base_credits :=
    if victory then
      let b := Int.tdiv (base_credits * 3) 2
      if player_level < opponent_level then
        b + (opponent_level - player_level) * 3
      else b
    else Int.tdiv base_credits 5
  max 0 base_credits

/-- The six random draws one call of _execute_round can consume, in draw
order: the two initiative jitters, then crit roll and damage jitter for the
first attack, then crit roll and damage jitter for the second attack (unused
if the round ends early). -/
structure RoundRng where
  p_init : Int
  o_init : Int
  crit_a : Int
  jit_a : Int
  crit_b : Int
  jit_b : Int
deriving Repr, DecidableEq

/-- One round's record (combat.py lines 171-178): healths after the round and
the damage each side received this round (`player_damage` is damage dealt TO
the player, `opponent_damage` damage dealt TO the opponent). -/
structure RoundResult where
  round : Nat
  player_health : Int
  opponent_health : Int
  player_damage : Int
  opponent_damage : Int
deriving Repr, DecidableEq

/-- CombatSystem._execute_round (combat.py lines 168-224): initiative decides
who strikes first (ties favour the player); if the first strike drops the
defender to 0 the round returns immediately and the second side never acts. -/
def execute_round (player_stats : Stats) (opponent : NPC)
    (player_health opponent_health : Int) (round_num : Nat)
    (rng : RoundRng) : RoundResult :=
  let player_initiative := player_stats.speed + rng.p_init
  let opponent_initiative := opponent.speed + rng.o_init
  if opponent_initiative ≤ player_initiative then
    let player_damage := calculate_damage player_stats.attack opponent.defense
      player_stats.critical_damage rng.crit_a rng.jit_a
    let opponent_health := max 0 (opponent_health - player_damage)
    if opponent_health ≤ 0 then
      { round := round_num, player_health := player_health,
        opponent_health := 0, player_damage := 0,
        opponent_damage := player_damage }
    else
      let opponent_damage := calculate_damage opponent.attack
        player_stats.defense opponent.critical_damage rng.crit_b rng.jit_b
      let player_health := max 0 (player_health - opponent_damage)
      { round := round_num, player_health := player_health,
        opponent_health := opponent_health, player_damage := opponent_damage,
        opponent_damage := player_damage }
  else
    let opponent_damage := calculate_damage opponent.attack
      player_stats.defense opponent.critical_damage rng.crit_a rng.jit_a
    let player_health := max 0 (player_health - opponent_damage)
    if player_health ≤ 0 then
      { round := round_num, player_health := 0,
        opponent_health := opponent_health, player_damage := opponent_damage,
        opponent_damage := 0 }
    else
      let player_damage := calculate_damage player_stats.attack
        opponent.defense player_stats.critical_damage rng.crit_b rng.jit_b
      let opponent_health := max 0 (opponent_health - player_damage)
      { round := round_num, player_health := player_health,
        opponent_health := opponent_health, player_damage := opponent_damage,
        opponent_damage := player_damage }

/-- The while loop of execute_battle (combat.py lines 92-102):
`while player_health > 0 and opponent_health > 0 and round_num <= 20`.
`remaining` counts the rounds the cap still allows (21 - round_num), so the
recursion is structural; the loop exits exactly when a health is gone or the
cap is passed. Returns the final player health, final opponent health and the
accumulated round log. -/
def battle_loop (player_stats : Stats) (opponent : NPC)
    (rng : Nat → RoundRng) :
    Nat → Nat → Int → Int → Int × Int × List RoundResult
  | 0, _, player_health, opponent_health =>
    (player_health, opponent_health, [])
  | remaining + 1, round_num, player_health, opponent_health =>
    if 0 < player_health ∧ 0 < opponent_health then
      let r := execute_round player_stats opponent player_health
        opponent_health round_num (rng round_num)
      let out := battle_loop player_stats opponent rng remaining
        (round_num + 1) r.player_health r.opponent_health
      (out.1, out.2.1, r :: out.2.2)
    else (player_health, opponent_health, [])

/-- The simulation part of execute_battle: start_combat timestamp, aggregated
stats, then the round loop started at round 1 with a 20-round budget. -/
def battle_sim (player : Player) (opponent : NPC) (now : String)
    (rng : Nat → RoundRng) : Int × Int × List RoundResult :=
  battle_loop (Player.get_total_stats { player with last_combat := some now })
    opponent rng 20 1 player.health opponent.health

/-- The result dictionary returned by execute_battle (combat.py lines
157-166), minus the presentation-only description/message strings. -/
structure BattleResult where
  result : String
  player_damage : Int
  opponent_damage : Int
  experience_gained : Int
  credits_gained : Int
  rounds : Nat
deriving Repr, DecidableEq

/-- CombatSystem.execute_battle (combat.py lines 76-166): runs the loop,
classifies the outcome, applies counters and rewards to the player, floors
the player's health to 1, and builds the result dictionary. Note that the
result's `player_damage` reads `player.max_health` after the reward was
applied (a level-up can have raised it), exactly as the code does. -/
def execute_battle (player : Player) (opponent : NPC) (now : String)
    (rng : Nat → RoundRng) : BattleResult × Player :=
  let player1 := { player with last_combat := some now }
  let out := battle_sim player opponent now rng
  let player_health := out.1
  let opponent_health := out.2.1
  let battle_rounds := out.2.2
  let step :=
    if 0 < player_health ∧ opponent_health ≤ 0 then
      ("victory",
       calculate_experience_reward player1.level opponent.level true,
       calculate_credits_reward player1.level opponent.level true,
       { player1 with combat_wins := player1.combat_wins + 1 })
    else if 0 < opponent_health ∧ player_health ≤ 0 then
      ("defeat",
       calculate_experience_reward player1.level opponent.level false,
       calculate_credits_reward player1.level opponent.level false,
       { player1 with combat_losses := player1.combat_losses + 1 })
    else
      ("draw",
       calculate_experience_reward player1.level opponent.level false,
       calculate_credits_reward player1.level opponent.level false,
       player1)
  let experience_gained := step.2.1
  let credits_gained := step.2.2.1
  let p := (Player.add_experience step.2.2.2 experience_gained).add_credits
    credits_gained
  let p := { p with health := max 1 player_health }
  ({ result := step.1,
     player_damage := p.max_health - player_health,
     opponent_damage := opponent.max_health - opponent_health,
     experience_gained := experience_gained,
     credits_gained := credits_gained,
     rounds := battle_rounds.length }, p)

/-! Spec-side restatements (written from the specification's wording, to be
compared with the definitions translated from the source). -/

/-- Damage pipeline as the spec words it: floor base, floor of base × 1.5 on
a crit (floor division), jitter, clamp to 1. -/
def spec_damage (attack defense critical_chance crit_roll jitter : Int) : Int :=
  let base := max 1 (attack - Int.fdiv defense 2)
  let base :=
    if crit_roll ≤ critical_chance then Int.fdiv (base * 3) 2 else base
  max 1 (base + jitter)

/-- Experience reward as the spec words it: opponent.level × 10, ×1.5 floored
plus level_diff × 5 for a stronger opponent on victory, ×0.3 floored
otherwise, minimum 1. -/
def spec_experience_reward (player_level opponent_level : Int)
    (victory : Bool) : Int :=
  max 1
    (if victory then
      Int.fdiv (opponent_level * 10 * 3) 2
        + (if player_level < opponent_level then
            (opponent_level - player_level) * 5
          else 0)
    else Int.fdiv (opponent_level * 10 * 3) 10)

/-- Currency reward as the spec words it: opponent.level × 5, ×1.5 floored
plus level_diff × 3 for a stronger opponent on victory, ×0.2 floored
otherwise, minimum 0. -/
def spec_credits_reward (player_level opponent_level : Int)
    (victory : Bool) : Int :=
  max 0
    (if victory then
      Int.fdiv (opponent_level * 5 * 3) 2
        + (if player_level < opponent_level then
            (opponent_level - player_level) * 3
          else 0)
    else Int.fdiv (opponent_level * 5) 5)

/-! Concrete inputs used by witnesses, counterexamples and code-bug
evaluations. -/

/-- The roster weapon "Кибер-меч" (items.py items_database): attack_bonus 5. -/
def cyber_sword : Item :=
  { name := "Кибер-меч", type := "weapon", rarity := "common",
    description := "Базовый кибер-меч с энергетическим лезвием", cost := 100,
    attack_bonus := 5, defense_bonus := 0, speed_bonus := 0,
    critical_bonus := 0 }

/-- A fresh player who has picked up one weapon through add_item. -/
def demo_player : Player := (Player.new 1 "u" "t").add_item cyber_sword

/-- A fresh default player. -/
def demo_fresh : Player := Player.new 1 "u" "t0"

/-- A fresh player who enters battle hurt (health 50 of 100) and strong
enough (attack 200) to one-shot the starter opponent. -/
def demo_hurt_player : Player :=
  { Player.new 1 "u" "t" with health := 50, attack := 200 }

/-- The level-1 roster opponent (combat.py npc_database). -/
def demo_npc : NPC := NPC.make "Кибер-гангстер" 1 80 12 6 7

/-- Deterministic round randomness: no initiative jitter, crit roll 100
(never a crit for chance ≤ 99), no damage jitter. -/
def demo_round_rng : RoundRng :=
  { p_init := 0, o_init := 0, crit_a := 100, jit_a := 0, crit_b := 100,
    jit_b := 0 }

/-- The same deterministic randomness for every round. -/
def demo_rng : Nat → RoundRng := fun _ => demo_round_rng

/-- A fresh player's aggregated stats (empty inventory). -/
def demo_stats : Stats :=
  { attack := 10, defense := 5, speed := 8, critical_damage := 15 }

/-- A concrete random.choice oracle: the head of the candidate list. -/
def choose_head (l : List NPC) : NPC := l.headD (NPC.make "none" 0 1 0 0 0)

/-! Helper lemmas. -/

/-- Truncating division agrees with floor division on nonnegative numerators
and positive denominators (all the program's `int(x * r)` sites have base
values that are nonnegative there). -/
theorem tdiv_eq_fdiv_of_nonneg {a b : Int} (ha : 0 ≤ a) (hb : 0 ≤ b) :
    Int.tdiv a b = Int.fdiv a b := by
  rw [Int.tdiv_eq_ediv ha hb, Int.fdiv_eq_ediv _ hb]

/-- C1: _calculate_damage computes exactly the spec's four steps — floor-div
defense mitigation with a floor at 1, floor(base × 1.5) on a successful crit
roll, additive jitter, and a final clamp to a minimum of 1 — so the returned
damage is always at least 1, for every input. -/
theorem calculate_damage_matches_spec
    (attack defense critical_chance crit_roll jitter : Int) :
    calculate_damage attack defense critical_chance crit_roll jitter
      = spec_damage attack defense critical_chance crit_roll jitter
    ∧ 1 ≤ calculate_damage attack defense critical_chance crit_roll jitter := by
  constructor
  · simp only [calculate_damage, spec_damage]
    have hb : (0:Int) ≤ max 1 (attack - Int.fdiv defense 2) * 3 := by
      have h1 : (1:Int) ≤ max 1 (attack - Int.fdiv defense 2) :=
        le_max_left 1 _
      omega
    rw [tdiv_eq_fdiv_of_nonneg hb (by norm_num)]
  · exact le_max_left 1 _

/-- C4: both reward calculators are the deterministic pure functions of
(opponent level, player level, victory flag) the spec describes, for every
nonnegative opponent level (the roster only has levels ≥ 1): experience
matches the ×10 / ×1.5-floored / level-diff ×5 / ×0.3-floored / min-1 curve
and currency the ×5 / ×1.5-floored / level-diff ×3 / ×0.2-floored / min-0
curve. -/
theorem reward_functions_match_spec (player_level opponent_level : Int)
    (victory : Bool) (h : 0 ≤ opponent_level) :
    calculate_experience_reward player_level opponent_level victory
      = spec_experience_reward player_level opponent_level victory
    ∧ calculate_credits_reward player_level opponent_level victory
      = spec_credits_reward player_level opponent_level victory
    ∧ 1 ≤ calculate_experience_reward player_level opponent_level victory
    ∧ 0 ≤ calculate_credits_reward player_level opponent_level victory := by
  refine ⟨?_, ?_, le_max_left 1 _, le_max_left 0 _⟩
  · cases victory with
    | false =>
      show max 1 ((opponent_level * 10 * 3).tdiv 10)
        = max 1 ((opponent_level * 10 * 3).fdiv 10)
      rw [tdiv_eq_fdiv_of_nonneg (by omega) (by norm_num)]
    | true =>
      show max 1 (if player_level < opponent_level then
            (opponent_level * 10 * 3).tdiv 2 + (opponent_level - player_level) * 5
          else (opponent_level * 10 * 3).tdiv 2)
        = max 1 ((opponent_level * 10 * 3).fdiv 2
            + if player_level < opponent_level then
                (opponent_level - player_level) * 5
              else 0)
      rw [tdiv_eq_fdiv_of_nonneg (by omega) (by norm_num)]
      by_cases hlt : player_level < opponent_level <;> simp [hlt]
  · cases victory with
    | false =>
      show max 0 ((opponent_level * 5).tdiv 5)
        = max 0 ((opponent_level * 5).fdiv 5)
      rw [tdiv_eq_fdiv_of_nonneg (by omega) (by norm_num)]
    | true =>
      show max 0 (if player_level < opponent_level then
            (opponent_level * 5 * 3).tdiv 2 + (opponent_level - player_level) * 3
          else (opponent_level * 5 * 3).tdiv 2)
        = max 0 ((opponent_level * 5 * 3).fdiv 2
            + if player_level < opponent_level then
                (opponent_level - player_level) * 3
              else 0)
      rw [tdiv_eq_fdiv_of_nonneg (by omega) (by norm_num)]
      by_cases hlt : player_level < opponent_level <;> simp [hlt]

/-- C4 witness at player level 1 against a stronger level-11 opponent. -/
theorem reward_functions_witness :
    calculate_experience_reward 1 11 true = spec_experience_reward 1 11 true :=
  (reward_functions_match_spec 1 11 true (by decide)).1

/-- C5: the aggregated profile does NOT equal base stats plus the sum of item
bonuses. A fresh player has base attack 10; after add_item of a weapon with
attack_bonus 5, get_total_stats reports attack 20, not 10 + 5 = 15: add_item
already folded the bonus into the attack field via apply_item_effects, and
get_total_stats adds every inventory bonus again on top. -/
theorem get_total_stats_double_counts :
    (Player.new 1 "u" "t").attack = 10
    ∧ cyber_sword.attack_bonus = 5
    ∧ demo_player.get_total_stats.attack = 20
    ∧ (Player.new 1 "u" "t").attack + cyber_sword.attack_bonus = 15 := by
  decide

/-- C6 counterexample: a fresh player (experience 0, threshold 100) who is
granted 250 experience ends the call with experience 150 and threshold 150 —
not strictly below the threshold — because add_experience checks the
threshold once instead of looping. -/
theorem add_experience_counterexample :
    ¬ ((Player.new 1 "u" "t").add_experience 250).experience
      < ((Player.new 1 "u" "t").add_experience 250).experience_to_next_level := by
  decide

/-- C6 (amended): add_experience performs at most one level-up per call — the
level rises by exactly 1 precisely when the added amount reaches the current
threshold, and never by more, so a reward crossing several thresholds still
fires a single level-up and can leave experience at or above the new
threshold. -/
theorem add_experience_single_level (p : Player) (amount : Int) :
    ((p.add_experience amount).level = p.level
      ∨ (p.add_experience amount).level = p.level + 1)
    ∧ ((p.add_experience amount).level = p.level + 1
        ↔ p.experience_to_next_level ≤ p.experience + amount) := by
  simp only [Player.add_experience, Player.level_up]
  split_ifs with h
  · have h' : p.experience_to_next_level ≤ p.experience + amount := h
    exact ⟨Or.inr rfl, iff_of_true rfl h'⟩
  · have h' : ¬ p.experience_to_next_level ≤ p.experience + amount := h
    refine ⟨Or.inl rfl, ?_⟩
    constructor
    · intro habs
      have hlev : p.level = p.level + 1 := habs
      omega
    · intro hc
      exact absurd hc h'

/-- One round never ends with both sides at 0: the first strike that drops
the defender to 0 returns the round immediately, so the other side's health
is untouched and still positive. -/
theorem execute_round_pos (st : Stats) (opponent : NPC) (ph oh : Int)
    (n : Nat) (r : RoundRng) (hp : 0 < ph) (ho : 0 < oh) :
    0 < (execute_round st opponent ph oh n r).player_health
    ∨ 0 < (execute_round st opponent ph oh n r).opponent_health := by
  simp only [execute_round]
  split_ifs with hinit hko hko2
  · exact Or.inl hp
  · exact Or.inr (not_le.mp hko)
  · exact Or.inr ho
  · exact Or.inl (not_le.mp hko2)

/-- The player's health after a round is at least the health before minus the
damage the round reports as dealt to the player. -/
theorem execute_round_player_health_ge (st : Stats) (opponent : NPC)
    (ph oh : Int) (n : Nat) (r : RoundRng) :
    ph - (execute_round st opponent ph oh n r).player_damage
      ≤ (execute_round st opponent ph oh n r).player_health := by
  simp only [execute_round]
  split_ifs with hinit hko hko2 <;> dsimp only
  · omega
  · exact le_max_right 0 _
  · exact (le_max_right 0 _).trans hko2
  · exact le_max_right 0 _

/-- If a health is already gone (or the budget is 0 the loop check fails),
the loop returns its inputs untouched. -/
theorem battle_loop_not_run (st : Stats) (opponent : NPC)
    (rng : Nat → RoundRng) (remaining round_num : Nat) (ph oh : Int)
    (h : ¬ (0 < ph ∧ 0 < oh)) :
    battle_loop st opponent rng remaining round_num ph oh = (ph, oh, []) := by
  cases remaining <;> simp [battle_loop, h]

/-- The loop never logs more rounds than its remaining budget. -/
theorem battle_loop_len_le (st : Stats) (opponent : NPC)
    (rng : Nat → RoundRng) :
    ∀ (remaining round_num : Nat) (ph oh : Int),
      (battle_loop st opponent rng remaining round_num ph oh).2.2.length
        ≤ remaining := by
  intro remaining
  induction remaining with
  | zero => intro round_num ph oh; simp [battle_loop]
  | succ n ih =>
    intro round_num ph oh
    by_cases h : 0 < ph ∧ 0 < oh
    · simp only [battle_loop, if_pos h, List.length_cons]
      exact Nat.succ_le_succ (ih _ _ _)
    · rw [battle_loop_not_run st opponent rng _ _ _ _ h]
      simp

/-- Starting from two positive healths, the loop never ends with both healths
at 0 (per-round corollary of `execute_round_pos`). -/
theorem battle_loop_pos (st : Stats) (opponent : NPC) (rng : Nat → RoundRng) :
    ∀ (remaining round_num : Nat) (ph oh : Int), 0 < ph → 0 < oh →
      0 < (battle_loop st opponent rng remaining round_num ph oh).1
      ∨ 0 < (battle_loop st opponent rng remaining round_num ph oh).2.1 := by
  intro remaining
  induction remaining with
  | zero => intro round_num ph oh hp ho; exact Or.inl hp
  | succ n ih =>
    intro round_num ph oh hp ho
    have hcond : 0 < ph ∧ 0 < oh := ⟨hp, ho⟩
    simp only [battle_loop, if_pos hcond]
    by_cases hb :
        0 < (execute_round st opponent ph oh round_num (rng round_num)).player_health
        ∧ 0 < (execute_round st opponent ph oh round_num (rng round_num)).opponent_health
    · exact ih _ _ _ hb.1 hb.2
    · rw [battle_loop_not_run st opponent rng n _ _ _ hb]
      exact execute_round_pos st opponent ph oh round_num (rng round_num) hp ho

/-- If the loop starts with both healths positive and also ends with both
healths positive, it must have spent its whole round budget. -/
theorem battle_loop_full_len (st : Stats) (opponent : NPC)
    (rng : Nat → RoundRng) :
    ∀ (remaining round_num : Nat) (ph oh : Int), 0 < ph → 0 < oh →
      0 < (battle_loop st opponent rng remaining round_num ph oh).1 →
      0 < (battle_loop st opponent rng remaining round_num ph oh).2.1 →
      (battle_loop st opponent rng remaining round_num ph oh).2.2.length
        = remaining := by
  intro remaining
  induction remaining with
  | zero => intro round_num ph oh _ _ _ _; simp [battle_loop]
  | succ n ih =>
    intro round_num ph oh hp ho hfp hfo
    have hcond : 0 < ph ∧ 0 < oh := ⟨hp, ho⟩
    simp only [battle_loop, if_pos hcond] at hfp hfo ⊢
    by_cases hb :
        0 < (execute_round st opponent ph oh round_num (rng round_num)).player_health
        ∧ 0 < (execute_round st opponent ph oh round_num (rng round_num)).opponent_health
    · rw [List.length_cons, ih _ _ _ hb.1 hb.2 hfp hfo]
    · exfalso
      rw [battle_loop_not_run st opponent rng n _ _ _ hb] at hfp hfo
      exact hb ⟨hfp, hfo⟩

/-- The simulated final player health is bounded below by the entering health
minus the per-round damage sum (clamping can only lose damage, not invent
it). -/
theorem battle_loop_damage_sum (st : Stats) (opponent : NPC)
    (rng : Nat → RoundRng) :
    ∀ (remaining round_num : Nat) (ph oh : Int),
      ph - ((battle_loop st opponent rng remaining round_num ph oh).2.2.map
            (fun rd => rd.player_damage)).sum
        ≤ (battle_loop st opponent rng remaining round_num ph oh).1 := by
  intro remaining
  induction remaining with
  | zero => intro round_num ph oh; simp [battle_loop]
  | succ n ih =>
    intro round_num ph oh
    by_cases h : 0 < ph ∧ 0 < oh
    · simp only [battle_loop, if_pos h, List.map_cons, List.sum_cons]
      have h1 := execute_round_player_health_ge st opponent ph oh round_num
        (rng round_num)
      have h2 := ih (round_num + 1)
        (execute_round st opponent ph oh round_num (rng round_num)).player_health
        (execute_round st opponent ph oh round_num (rng round_num)).opponent_health
      omega
    · rw [battle_loop_not_run st opponent rng _ _ _ _ h]
      simp

/-- battle_sim unfolded. -/
theorem battle_sim_eq (player : Player) (opponent : NPC) (now : String)
    (rng : Nat → RoundRng) :
    battle_sim player opponent now rng
      = battle_loop
          (Player.get_total_stats { player with last_combat := some now })
          opponent rng 20 1 player.health opponent.health := rfl

/-- The result's round count is the length of the simulated round log. -/
theorem execute_battle_rounds_eq (player : Player) (opponent : NPC)
    (now : String) (rng : Nat → RoundRng) :
    (execute_battle player opponent now rng).1.rounds
      = (battle_sim player opponent now rng).2.2.length := rfl

/-- The updated player's health is the simulated final health floored to 1. -/
theorem execute_battle_health_eq (player : Player) (opponent : NPC)
    (now : String) (rng : Nat → RoundRng) :
    (execute_battle player opponent now rng).2.health
      = max 1 (battle_sim player opponent now rng).1 := rfl

/-- The result tag is the classification of the simulated final healths. -/
theorem execute_battle_result_eq (player : Player) (opponent : NPC)
    (now : String) (rng : Nat → RoundRng) :
    (execute_battle player opponent now rng).1.result
      = (if 0 < (battle_sim player opponent now rng).1
            ∧ (battle_sim player opponent now rng).2.1 ≤ 0 then "victory"
        else if 0 < (battle_sim player opponent now rng).2.1
            ∧ (battle_sim player opponent now rng).1 ≤ 0 then "defeat"
        else "draw") := by
  by_cases h1 : 0 < (battle_sim player opponent now rng).1
      ∧ (battle_sim player opponent now rng).2.1 ≤ 0
  · simp [execute_battle, h1]
  · by_cases h2 : 0 < (battle_sim player opponent now rng).2.1
        ∧ (battle_sim player opponent now rng).1 ≤ 0
    · simp [execute_battle, h1, h2]
    · simp [execute_battle, h1, h2]

/-- C7: the persistence round trip is NOT lossless. The player holding one
weapon with attack_bonus 5 has attack 15 (base 10 + bonus folded in by
add_item); to_dict saves 15, but from_dict re-runs apply_item_effects for
every saved inventory item on top of the saved stats, reloading the player
with attack 20. -/
theorem reload_not_lossless :
    demo_player.attack = 15
    ∧ (Player.from_dict demo_player.to_dict).attack = 20
    ∧ Player.from_dict demo_player.to_dict ≠ demo_player := by
  decide

/-- C3: the round loop is a total function executing at most 20 rounds for
any player, opponent and randomness: the reported round count and the logged
round list never exceed the 20-round cap. -/
theorem battle_rounds_le_cap (player : Player) (opponent : NPC) (now : String)
    (rng : Nat → RoundRng) :
    (execute_battle player opponent now rng).1.rounds ≤ 20
    ∧ (battle_sim player opponent now rng).2.2.length ≤ 20 := by
  constructor
  · rw [execute_battle_rounds_eq, battle_sim_eq]
    exact battle_loop_len_le _ _ _ 20 1 _ _
  · rw [battle_sim_eq]
    exact battle_loop_len_le _ _ _ 20 1 _ _

/-- C2: for a battle entered with both healths positive, the outcome is
exactly one of victory, defeat or draw; it is victory iff the opponent's
simulated health reached 0 with the player's still positive, defeat iff the
player's reached 0 with the opponent's still positive, draw iff both are
still positive (which only ever happens at the 20-round cap); and the
player's persistent health afterwards is at least 1. -/
theorem execute_battle_outcome (player : Player) (opponent : NPC)
    (now : String) (rng : Nat → RoundRng) (hp : 0 < player.health)
    (ho : 0 < opponent.health) :
    ((execute_battle player opponent now rng).1.result = "victory"
      ∨ (execute_battle player opponent now rng).1.result = "defeat"
      ∨ (execute_battle player opponent now rng).1.result = "draw")
    ∧ ((execute_battle player opponent now rng).1.result = "victory"
        ↔ 0 < (battle_sim player opponent now rng).1
          ∧ (battle_sim player opponent now rng).2.1 ≤ 0)
    ∧ ((execute_battle player opponent now rng).1.result = "defeat"
        ↔ 0 < (battle_sim player opponent now rng).2.1
          ∧ (battle_sim player opponent now rng).1 ≤ 0)
    ∧ ((execute_battle player opponent now rng).1.result = "draw"
        ↔ 0 < (battle_sim player opponent now rng).1
          ∧ 0 < (battle_sim player opponent now rng).2.1)
    ∧ ((execute_battle player opponent now rng).1.result = "draw"
        → (execute_battle player opponent now rng).1.rounds = 20)
    ∧ 1 ≤ (execute_battle player opponent now rng).2.health := by
  have hpos : 0 < (battle_sim player opponent now rng).1
      ∨ 0 < (battle_sim player opponent now rng).2.1 := by
    rw [battle_sim_eq]
    exact battle_loop_pos _ _ _ 20 1 _ _ hp ho
  rw [execute_battle_result_eq, execute_battle_rounds_eq,
    execute_battle_health_eq]
  split_ifs with h1 h2
  · exact ⟨Or.inl rfl, iff_of_true rfl h1,
      iff_of_false (by decide) (by omega),
      iff_of_false (by decide) (by omega),
      fun hd => absurd hd (by decide), le_max_left 1 _⟩
  · exact ⟨Or.inr (Or.inl rfl), iff_of_false (by decide) h1,
      iff_of_true rfl h2, iff_of_false (by decide) (by omega),
      fun hd => absurd hd (by decide), le_max_left 1 _⟩
  · have hboth : 0 < (battle_sim player opponent now rng).1
        ∧ 0 < (battle_sim player opponent now rng).2.1 := by
      rcases hpos with h | h <;> constructor <;> omega
    refine ⟨Or.inr (Or.inr rfl), iff_of_false (by decide) (by omega),
      iff_of_false (by decide) (by omega), iff_of_true rfl hboth,
      fun _ => ?_, le_max_left 1 _⟩
    rw [battle_sim_eq]
    refine battle_loop_full_len _ _ _ 20 1 _ _ hp ho ?_ ?_
    · exact battle_sim_eq player opponent now rng ▸ hboth.1
    · exact battle_sim_eq player opponent now rng ▸ hboth.2

/-- C2 witness: a fresh level-1 player against the level-1 roster opponent
with deterministic randomness; the post-battle health floor holds. -/
theorem execute_battle_outcome_witness :
    1 ≤ (execute_battle demo_fresh demo_npc "t" demo_rng).2.health :=
  (execute_battle_outcome demo_fresh demo_npc "t" demo_rng (by decide)
    (by decide)).2.2.2.2.2

/-- C10: a round entered with both healths positive never ends with both at
0 (the early return after a kill skips the second attack); consequently the
loop's final healths are never both 0, and the classification's final else
branch — result "draw" — is reached only with both healths still positive
after a full 20 logged rounds. -/
theorem no_simultaneous_ko (st : Stats) (player : Player) (opponent : NPC)
    (now : String) (rng : Nat → RoundRng) (ph oh : Int) (n : Nat)
    (r : RoundRng) (h1 : 0 < ph) (h2 : 0 < oh) (hp : 0 < player.health)
    (ho : 0 < opponent.health) :
    (0 < (execute_round st opponent ph oh n r).player_health
      ∨ 0 < (execute_round st opponent ph oh n r).opponent_health)
    ∧ (0 < (battle_sim player opponent now rng).1
      ∨ 0 < (battle_sim player opponent now rng).2.1)
    ∧ ((execute_battle player opponent now rng).1.result = "draw"
      → 0 < (battle_sim player opponent now rng).1
        ∧ 0 < (battle_sim player opponent now rng).2.1
        ∧ (execute_battle player opponent now rng).1.rounds = 20) := by
  refine ⟨execute_round_pos st opponent ph oh n r h1 h2, ?_, ?_⟩
  · rw [battle_sim_eq]
    exact battle_loop_pos _ _ _ 20 1 _ _ hp ho
  · intro hd
    rcases (execute_battle_outcome player opponent now rng hp ho).2.2.1
      with ⟨hmp, _⟩
    have hdraw := ((execute_battle_outcome player opponent now rng hp ho).2.2.2.1).mp hd
    exact ⟨hdraw.1, hdraw.2,
      (execute_battle_outcome player opponent now rng hp ho).2.2.2.2.1 hd⟩

/-- C10 witness at a concrete round state. -/
theorem no_simultaneous_ko_witness :
    0 < (execute_round demo_stats demo_npc 50 80 1 demo_round_rng).player_health
    ∨ 0 < (execute_round demo_stats demo_npc 50 80 1 demo_round_rng).opponent_health :=
  (no_simultaneous_ko demo_stats demo_fresh demo_npc "t" demo_rng 50 80 1
    demo_round_rng (by decide) (by decide) (by decide) (by decide)).1

/-- C9 counterexample: a player entering at 50 of 100 health who kills the
opponent in round one before it acts takes 0 damage over the battle, yet the
result reports player_damage = 50 (the pre-battle health deficit). -/
theorem battle_damage_counterexample :
    (execute_battle demo_hurt_player demo_npc "t" demo_rng).1.player_damage = 50
    ∧ ((battle_sim demo_hurt_player demo_npc "t" demo_rng).2.2.map
        (fun rd => rd.player_damage)).sum = 0
    ∧ (execute_battle demo_hurt_player demo_npc "t" demo_rng).1.player_damage
      ≠ ((battle_sim demo_hurt_player demo_npc "t" demo_rng).2.2.map
          (fun rd => rd.player_damage)).sum := by
  decide

/-- C9 (amended): the result's player_damage field equals the post-battle
player's max_health (after any reward level-up) minus the final simulated
player health, and opponent_damage equals the opponent's max_health minus the
final simulated opponent health; the per-round damage sum only bounds the
health actually lost. -/
theorem battle_damage_fields (player : Player) (opponent : NPC) (now : String)
    (rng : Nat → RoundRng) :
    (execute_battle player opponent now rng).1.player_damage
      = (execute_battle player opponent now rng).2.max_health
        - (battle_sim player opponent now rng).1
    ∧ (execute_battle player opponent now rng).1.opponent_damage
      = opponent.max_health - (battle_sim player opponent now rng).2.1
    ∧ player.health
        - ((battle_sim player opponent now rng).2.2.map
            (fun rd => rd.player_damage)).sum
      ≤ (battle_sim player opponent now rng).1 := by
  refine ⟨rfl, rfl, ?_⟩
  rw [battle_sim_eq]
  exact battle_loop_damage_sum _ _ _ 20 1 _ _

/-- The head oracle returns an element of any nonempty list. -/
theorem choose_head_mem : ∀ l : List NPC, l ≠ [] → choose_head l ∈ l := by
  intro l h
  cases l with
  | nil => exact absurd rfl h
  | cons a t => exact List.mem_cons_self a t

/-- C8: for any element-returning choice oracle, find_opponent over the fixed
roster returns None exactly when no roster NPC is within 3 levels of the
player, and any opponent it returns is a roster NPC within 3 levels; the
draw is made by the oracle over exactly the eligible (filtered) set. -/
theorem find_opponent_in_range (player_level : Int)
    (choose : List NPC → NPC)
    (hchoose : ∀ l : List NPC, l ≠ [] → choose l ∈ l) :
    (find_opponent npc_database player_level choose = none
      ↔ ∀ npc ∈ npc_database, ¬ (npc.level - player_level).natAbs ≤ 3)
    ∧ (∀ npc, find_opponent npc_database player_level choose = some npc →
        npc ∈ npc_database ∧ (npc.level - player_level).natAbs ≤ 3) := by
  constructor
  · simp only [find_opponent]
    split_ifs with he
    · have hall : ∀ npc ∈ npc_database,
          ¬ (npc.level - player_level).natAbs ≤ 3 := by
        simpa [List.isEmpty_iff, List.filter_eq_nil_iff] using he
      exact iff_of_true rfl hall
    · have hne : npc_database.filter
          (fun npc => (npc.level - player_level).natAbs ≤ 3) ≠ [] := by
        simpa [List.isEmpty_iff] using he
      obtain ⟨x, hx⟩ := List.exists_mem_of_ne_nil _ hne
      rcases List.mem_filter.mp hx with ⟨hxdb, hxf⟩
      refine iff_of_false (by simp) ?_
      intro hall
      exact hall x hxdb (by simpa using hxf)
  · intro npc h
    simp only [find_opponent] at h
    by_cases he : (npc_database.filter
        (fun npc => (npc.level - player_level).natAbs ≤ 3)).isEmpty = true
    · rw [if_pos he] at h
      exact Option.noConfusion h
    · rw [if_neg he] at h
      have hne : npc_database.filter
          (fun npc => (npc.level - player_level).natAbs ≤ 3) ≠ [] := by
        simpa [List.isEmpty_iff] using he
      have hmem := hchoose _ hne
      cases h
      rcases List.mem_filter.mp hmem with ⟨hdb, hf⟩
      exact ⟨hdb, by simpa using hf⟩

/-- C8 witness: at level 100 the roster (max level 35) has no eligible
opponent, and find_opponent returns None. -/
theorem find_opponent_witness :
    find_opponent npc_database 100 choose_head = none :=
  (find_opponent_in_range 100 choose_head choose_head_mem).1.mpr (by decide)

end Cyberpunk
